import Mathlib

/-!
Verification development for the sales-inventory dashboard repository.

The repository loads a spreadsheet into a pandas DataFrame
(`scripts/data_loader.py`), cleans it (`scripts/data_analysis.py`,
`clean_data`) and renders filterable pages
(`dashboard/pages/01_Sales_Overview.py`, `02_Inventory_Analysis.py`,
`06_Order_Lookup.py`).  This file shallowly embeds the cleaning pipeline,
the derived-metric formulas and the filter predicates of those files and
proves (or refutes) the specified properties about them.

Modelling conventions:
  * A float cell is modelled as `Option Dec`, a decimal value
    `mant / 10 ^ exp` (`none` = NaN/missing).  Every number this pipeline
    produces comes from parsing a decimal string, so decimals are the
    exact value domain; NaN and missing are identified, as pandas does
    for this code (`errors="coerce"` maps both parse failures and the
    string "nan" to NaN).
  * `pd.to_numeric(errors="coerce")` on a string is modelled by
    `parseNumList`: optional surrounding whitespace, optional sign,
    digits with optional fraction and exponent; anything else is `none`.
  * Python `str()` of a float cell is modelled by `renderNumCell`,
    rendering the decimal in scientific form `<mant>e-<exp>` (and NaN as
    "nan"), which `pd.to_numeric` reparses; the roundtrip theorem below
    models the repr-roundtrip guarantee of Python floats.
  * `pd.to_datetime` on a "x/y/z" string is modelled by
    `parseDateSlash`, including the dateutil month-versus-day preference
    and its fallback swap when the preferred reading is invalid.
-/

/-- A decimal number `mant / 10 ^ exp`: the value of a float cell of the
pipeline.  Representation is not normalised (`⟨10, 1⟩` and `⟨1, 0⟩` denote
the same value); cells are compared through `Dec.denote` where values
matter. -/
structure Dec where
  mant : Int
  exp : Nat
deriving DecidableEq

/-- The rational value of a decimal. -/
def Dec.denote (d : Dec) : ℚ := (d.mant : ℚ) / (10 : ℚ) ^ d.exp

/-- Less-or-equal of two decimals by cross-multiplying the powers of ten. -/
def decLE (a b : Dec) : Bool := a.mant * 10 ^ b.exp ≤ b.mant * 10 ^ a.exp

/-- Strict less-than of two decimals by cross-multiplying the powers of ten. -/
def decLT (a b : Dec) : Bool := a.mant * 10 ^ b.exp < b.mant * 10 ^ a.exp

/-- Zero as a decimal (the value `fillna(0)` substitutes). -/
def dec0 : Dec := ⟨0, 0⟩

/-- Product of two decimals. -/
def decMul (a b : Dec) : Dec := ⟨a.mant * b.mant, a.exp + b.exp⟩

/-- Difference of two decimals. -/
def decSub (a b : Dec) : Dec := ⟨a.mant * 10 ^ b.exp - b.mant * 10 ^ a.exp, a.exp + b.exp⟩

/-- The decimal digit character of `d < 10`. -/
def digChar : Nat → Char
  | 0 => '0' | 1 => '1' | 2 => '2' | 3 => '3' | 4 => '4'
  | 5 => '5' | 6 => '6' | 7 => '7' | 8 => '8' | _ => '9'

/-- Whether a character is an ASCII decimal digit. -/
def isDigitChar (c : Char) : Bool := 48 ≤ c.toNat && c.toNat ≤ 57

/-- Numeric value of an ASCII digit character. -/
def digitVal (c : Char) : Nat := c.toNat - 48

/-- Value of a digit string, most significant digit first. -/
def digitsVal (cs : List Char) : Nat := cs.foldl (fun a c => 10 * a + digitVal c) 0

/-- Decimal digits of `n`, most significant first, pushed onto `acc`. -/
def natRenderAux (n : Nat) (acc : List Char) : List Char :=
  if n < 10 then digChar n :: acc
  else natRenderAux (n / 10) (digChar (n % 10) :: acc)
termination_by n
decreasing_by exact Nat.div_lt_self (by omega) (by omega)

/-- Decimal rendering of a natural number. -/
def natRender (n : Nat) : List Char := natRenderAux n []

/-- Decimal rendering of an integer (minus sign for negatives). -/
def intRender (m : Int) : List Char :=
  if m < 0 then '-' :: natRender m.natAbs else natRender m.natAbs

/-- Rendering of a decimal in scientific form `<mant>e-<exp>`. -/
def renderDec (d : Dec) : List Char := intRender d.mant ++ 'e' :: '-' :: natRender d.exp

/-- Model of Python `str()` on a float cell (`astype(str)` per cell):
NaN renders as "nan", a value in a form `pd.to_numeric` reparses. -/
def renderNumCell : Option Dec → List Char
  | none => ['n', 'a', 'n']
  | some d => renderDec d

/-- Whitespace for the purposes of `str.strip` / numeric parsing. -/
def isWsChar (c : Char) : Bool := c == ' ' || c == '\t' || c == '\n' || c == '\r'

/-- Surrounding-whitespace trim on a character list (models `str.strip`). -/
def trimL (cs : List Char) : List Char :=
  ((cs.dropWhile isWsChar).reverse.dropWhile isWsChar).reverse

/-- A run of digits, or `none` when empty or followed by junk: the
exponent field of a numeric literal. -/
def parseExpDigits (cs : List Char) : Option Nat :=
  let ds := cs.takeWhile isDigitChar
  if ds.isEmpty || !(cs.dropWhile isDigitChar).isEmpty then none
  else some (digitsVal ds)

/-- Apply a positive exponent `k` to `mant / 10 ^ scale`. -/
def applyPosExp (mant : Int) (scale k : Nat) : Dec :=
  if k ≤ scale then ⟨mant, scale - k⟩ else ⟨mant * 10 ^ (k - scale), 0⟩

/-- What may follow `e`/`E` in a numeric literal: optionally signed digits. -/
def parseExpSuffix (mant : Int) (scale : Nat) (cs : List Char) : Option Dec :=
  match cs with
  | [] => none
  | c :: rest =>
    if c == '-' then (parseExpDigits rest).map (fun k => ⟨mant, scale + k⟩)
    else if c == '+' then (parseExpDigits rest).map (applyPosExp mant scale)
    else (parseExpDigits cs).map (applyPosExp mant scale)

/-- What may follow the mantissa of a numeric literal: nothing, or an
`e`/`E` exponent. -/
def parseExpPart (mant : Int) (scale : Nat) (cs : List Char) : Option Dec :=
  match cs with
  | [] => some ⟨mant, scale⟩
  | c :: rest =>
    if c == 'e' || c == 'E' then parseExpSuffix mant scale rest else none

/-- Unsigned mantissa (`digits`, `digits.digits`, `.digits`, `digits.`)
followed by an optional exponent. -/
def parseMantissa (sign : Int) (cs : List Char) : Option Dec :=
  let intDs := cs.takeWhile isDigitChar
  match cs.dropWhile isDigitChar with
  | [] => if intDs.isEmpty then none else parseExpPart (sign * (digitsVal intDs : Int)) 0 []
  | c :: rest2 =>
    if c == '.' then
      let fracDs := rest2.takeWhile isDigitChar
      let rest3 := rest2.dropWhile isDigitChar
      if intDs.isEmpty && fracDs.isEmpty then none
      else parseExpPart (sign * (digitsVal (intDs ++ fracDs) : Int)) fracDs.length rest3
    else if intDs.isEmpty then none
    else parseExpPart (sign * (digitsVal intDs : Int)) 0 (c :: rest2)

/-- An optional leading sign, then the mantissa. -/
def parseSigned : List Char → Option Dec
  | [] => none
  | c :: rest =>
    if c == '-' then parseMantissa (-1) rest
    else if c == '+' then parseMantissa 1 rest
    else parseMantissa 1 (c :: rest)

/-- Model of `pd.to_numeric(errors="coerce")` on one string cell:
`none` is NaN (pandas maps a parse failure, an empty cell and the string
"nan" all to NaN, and NaN is the missing marker of the pipeline). -/
def parseNumList (cs : List Char) : Option Dec :=
  parseSigned (trimL cs)

/-- The characters removed by the regex replace of `clean_data` line 12.
The source file stores the
rupee sign mojibake-encoded: the regex class holds U+00E2, U+201A,
U+00B9 and the comma — NOT the rupee sign U+20B9 itself. -/
def strippedCurrencyChar (c : Char) : Bool :=
  c == Char.ofNat 0xE2 || c == Char.ofNat 0x201A || c == Char.ofNat 0xB9 || c == ','

/-- Currency-column cell transform of `clean_data` lines 10-13:
remove the regex-class characters, then `pd.to_numeric(errors="coerce")`. -/
def cleanCurrencyCell (cs : List Char) : Option Dec :=
  parseNumList (cs.filter (fun c => !strippedCurrencyChar c))

/-- Percentage-column cell transform of `clean_data` lines 26-29:
remove every `%`, strip whitespace, then `pd.to_numeric`. -/
def cleanPercentCell (cs : List Char) : Option Dec :=
  parseNumList (trimL (cs.filter (fun c => !(c == '%'))))

/-- The real rupee sign U+20B9 (the symbol the pages print and the spec
uses in its currency examples). -/
def rupeeSign : Char := Char.ofNat 0x20B9

/-- A calendar date. -/
structure CalDate where
  year : Nat
  month : Nat
  day : Nat
deriving DecidableEq

/-- Chronological `<=` on dates (year, then month, then day). -/
def dateLE (a b : CalDate) : Bool :=
  decide (a.year < b.year) ||
    (decide (a.year = b.year) &&
      (decide (a.month < b.month) ||
        (decide (a.month = b.month) && decide (a.day ≤ b.day))))

/-- Gregorian leap year. -/
def isLeapYear (y : Nat) : Bool :=
  y % 4 == 0 && (y % 100 != 0 || y % 400 == 0)

/-- Days in a month of a given year. -/
def daysInMonth (y m : Nat) : Nat :=
  if m == 2 then (if isLeapYear y then 29 else 28)
  else if m == 4 || m == 6 || m == 9 || m == 11 then 30
  else 31

/-- Whether `m`/`d` is a valid month/day pair in year `y`. -/
def validMD (y m d : Nat) : Bool :=
  1 ≤ m && m ≤ 12 && 1 ≤ d && d ≤ daysInMonth y m

/-- A nonempty all-digit field, or `none`. -/
def parseNatList (cs : List Char) : Option Nat :=
  if cs.isEmpty || !(cs.all isDigitChar) then none else some (digitsVal cs)

/-- Split a character list at `/` (the tokenization dateutil applies to a
slash-separated date). -/
def splitOnSlash : List Char → List (List Char)
  | [] => [[]]
  | c :: rest =>
    if c == '/' then [] :: splitOnSlash rest
    else match splitOnSlash rest with
      | [] => [[c]]
      | f :: fs => (c :: f) :: fs

/-- Model of `pd.to_datetime(errors="coerce")` on one `x/y/z` string cell
(the date format of the repository): the third field is the year; with
`dayfirst=False` (the pandas default) the first field is preferred as the
month, with `dayfirst=True` as the day, and dateutil falls back to the
other reading when the preferred one is not a valid month/day pair.
`none` models NaT. -/
def parseDateSlash (dayfirst : Bool) (s : String) : Option CalDate :=
  match splitOnSlash s.data with
  | [a, b, c] =>
    match parseNatList (trimL a), parseNatList (trimL b), parseNatList (trimL c) with
    | some x, some y, some z =>
      if dayfirst then
        if validMD z y x then some ⟨z, y, x⟩
        else if validMD z x y then some ⟨z, x, y⟩
        else none
      else
        if validMD z x y then some ⟨z, x, y⟩
        else if validMD z y x then some ⟨z, y, x⟩
        else none
    | _, _, _ => none
  | _ => none

/-- A DataFrame column: raw text cells (object dtype), float cells
(after a numeric coercion) or datetime cells (after `pd.to_datetime`).
The dtype is a property of the whole column, as in pandas. -/
inductive Col where
  | strCol (cells : List String)
  | numCol (cells : List (Option Dec))
  | dateCol (cells : List (Option CalDate))
deriving DecidableEq

/-- Currency columns of `clean_data` lines 5-9. -/
def currency_cols : List String :=
  ["Total Sale", "Total Cost", "Final Sale", "Stock Value (Selling Price)",
   "Stock Value Cost", "Net Profit", "Revenue Lost Due to Discount",
   "Cost Price", "Effective Selling Price"]

/-- Percentage columns of `clean_data` lines 16-25. -/
def percent_cols : List String :=
  ["Profit per unit Margin (%)", "Discount %", "Profit Margin % (After Discount)",
   "Profit %", "Cancellation Rate", "Order Fulfillment Rate",
   "Supplier Fulfillment Ratio"]

/-- Plain numeric columns of `clean_data` lines 32-39. -/
def numeric_cols : List String :=
  ["Year", "Quantity Sold", "Unit Price", "Profit per Unit",
   "Profit per Unit (After Discount)", "Stock Left", "Days of Inventory",
   "Average Inventory", "Inventory Turnover", "Average Daily Sale",
   "Avg. 30 Days order"]

/-- Currency-column transform of `clean_data` lines 10-13:
`astype(str)`, strip the regex-class characters, `pd.to_numeric`.
On a datetime column the rendered timestamp string never parses as a
number, so every cell coerces to NaN. -/
def cleanCurrencyCol : Col → Col
  | .strCol cells => .numCol (cells.map (fun s => cleanCurrencyCell s.data))
  | .numCol cells =>
    .numCol (cells.map (fun v => parseNumList ((renderNumCell v).filter (fun c => !strippedCurrencyChar c))))
  | .dateCol cells => .numCol (cells.map (fun _ => none))

/-- Percentage-column transform of `clean_data` lines 26-29:
`astype(str)`, remove `%`, strip, `pd.to_numeric`.  As above, a datetime
column coerces to all-NaN. -/
def cleanPercentCol : Col → Col
  | .strCol cells => .numCol (cells.map (fun s => cleanPercentCell s.data))
  | .numCol cells =>
    .numCol (cells.map (fun v => parseNumList (trimL ((renderNumCell v).filter (fun c => !(c == '%'))))))
  | .dateCol cells => .numCol (cells.map (fun _ => none))

/-- Plain-numeric transform of `clean_data` lines 40-42:
`pd.to_numeric(errors="coerce")` with no `astype(str)`: a float column is
returned unchanged, a text column is parsed cell by cell.  The datetime
case is unreachable for the fixed schema (no date-typed column is listed
in `numeric_cols`); it is modelled as coercion to NaN. -/
def toNumericCol : Col → Col
  | .strCol cells => .numCol (cells.map (fun s => parseNumList s.data))
  | .numCol cells => .numCol cells
  | .dateCol cells => .numCol (cells.map (fun _ => none))

/-- Date transform of `clean_data` lines 45-46:
`pd.to_datetime(errors="coerce")` with the pandas default
`dayfirst=False`.  On an already-datetime column this is the identity;
the numeric case is unreachable for raw spreadsheet input (every raw
cell is a string) and is modelled as NaT. -/
def cleanDateCol : Col → Col
  | .strCol cells => .dateCol (cells.map (parseDateSlash false))
  | .dateCol cells => .dateCol cells
  | .numCol cells => .dateCol (cells.map (fun _ => none))

/-- What the four loops of `clean_data` do to one named column: each
loop transforms the column when its fixed list holds the name
(`if col in df.columns`); a column in none of the lists passes through
unchanged. -/
def cleanColumn (name : String) (c : Col) : Col :=
  let c1 := if currency_cols.contains name then cleanCurrencyCol c else c
  let c2 := if percent_cols.contains name then cleanPercentCol c1 else c1
  let c3 := if numeric_cols.contains name then toNumericCol c2 else c2
  if name == "Date" then cleanDateCol c3 else c3

/-- Table-level `clean_data` of `scripts/data_analysis.py` over named
columns.  Rows are never dropped here. -/
def clean_data (df : List (String × Col)) : List (String × Col) :=
  df.map (fun nc => (nc.1, cleanColumn nc.1 nc.2))

/-- The per-page Date step the cached loaders run after `clean_data`
(01_Sales_Overview lines 61-64, 02_Inventory_Analysis lines 89-93,
06_Order_Lookup lines 62-64): IF the Date column is not already of
datetime dtype, convert it (with the `dayfirst` choice of the page) and,
on the pages that do so, drop the rows whose date failed to parse.  A
column that is already datetime — which is what `clean_data` always
hands over — is left untouched, converted rows and all. -/
def pageDateStep (dayfirst dropBad : Bool) : Col → Col
  | .dateCol cells => .dateCol cells
  | .strCol cells =>
    let parsed := cells.map (parseDateSlash dayfirst)
    .dateCol (if dropBad then parsed.filter (fun d => d.isSome) else parsed)
  | .numCol cells =>
    let parsed : List (Option CalDate) := cells.map (fun _ => none)
    .dateCol (if dropBad then parsed.filter (fun d => d.isSome) else parsed)

/-- The Date column of the normalized table `get_sales_overview_data`
returns, as a function of the raw text cells: `clean_data` (lines 44-48)
then the page step of 01_Sales_Overview lines 61-64 (pandas-default
day ordering, `dropna` guarded by the dtype check). -/
def salesOverviewDateColumn (raw : List String) : Col :=
  pageDateStep false true (cleanDateCol (Col.strCol raw))

/-- The Date column of the normalized table `get_inventory_analysis_data`
returns: `clean_data`, then 02_Inventory_Analysis lines 89-93
(`dayfirst=True` and `dropna`, both under the dtype guard). -/
def inventoryDateColumn (raw : List String) : Col :=
  pageDateStep true true (cleanDateCol (Col.strCol raw))

/-- The Date column of the normalized table `get_order_lookup_data`
returns: `clean_data`, then 06_Order_Lookup lines 62-64 (conversion
under the dtype guard, no drop at all). -/
def orderLookupDateColumn (raw : List String) : Col :=
  pageDateStep false false (cleanDateCol (Col.strCol raw))

/-- A cell of a column `derive_stock_alert_flag` coerces: raw text or an
already-numeric value. -/
inductive Cell where
  | str (s : String)
  | num (v : Option Dec)
deriving DecidableEq

/-- Model of `pd.to_numeric(errors="coerce")` on one cell. -/
def Cell.toNumeric : Cell → Option Dec
  | .str s => parseNumList s.data
  | .num v => v

/-- The inventory DataFrame as `derive_stock_alert_flag` sees it:
a row count and the three stock columns, each present or absent
(`none` = the column is not in `df.columns`). -/
structure InvDF where
  nrows : Nat
  stock_left : Option (List Cell)
  reorder_level : Option (List Cell)
  max_stock_level : Option (List Cell)
deriving DecidableEq

/-- Pandas `<=` on float cells: false whenever either side is NaN. -/
def oLE : Option Dec → Option Dec → Bool
  | some a, some b => decLE a b
  | _, _ => false

/-- Pandas `>` on float cells: false whenever either side is NaN. -/
def oGT : Option Dec → Option Dec → Bool
  | some a, some b => decLT b a
  | _, _ => false

/-- One row of the `np.select` of 02_Inventory_Analysis lines 60-66 and 78:
the conditions in order, first match wins, default "Unknown". -/
def stockAlertRow (s r m : Option Dec) : String :=
  if oLE s r then "Reorder"
  else if oGT s r && oLE s m then "Optimal"
  else if oGT s m then "Surplus"
  else "Unknown"

/-- Function `derive_stock_alert_flag` of 02_Inventory_Analysis lines 46-80.
The `for col in [...]` loop coerces each of the three columns in order
and RETURNS as soon as one is absent, assigning every row the constant
marker "N/A (Missing Threshold Data)"; consequently the `elif` arms of
lines 67-76 (the two-column and fewer branches with their other markers)
are unreachable.  When all three columns are present, the `np.select` of
line 78 classifies each row, and line 79 overwrites the flag of each row
whose Stock Left is NaN with "N/A (Missing Stock Data)".  Returns the
updated DataFrame and the Stock Alert Flag column. -/
def derive_stock_alert_flag (df : InvDF) : InvDF × List String :=
  match df.stock_left with
  | none => (df, List.replicate df.nrows "N/A (Missing Threshold Data)")
  | some sl =>
    let df1 := { df with stock_left := some (sl.map (fun c => Cell.num c.toNumeric)) }
    match df.reorder_level with
    | none => (df1, List.replicate df.nrows "N/A (Missing Threshold Data)")
    | some rl =>
      let df2 := { df1 with reorder_level := some (rl.map (fun c => Cell.num c.toNumeric)) }
      match df.max_stock_level with
      | none => (df2, List.replicate df.nrows "N/A (Missing Threshold Data)")
      | some ms =>
        let df3 := { df2 with max_stock_level := some (ms.map (fun c => Cell.num c.toNumeric)) }
        let sv := sl.map Cell.toNumeric
        let rv := rl.map Cell.toNumeric
        let mv := ms.map Cell.toNumeric
        let base := (sv.zip (rv.zip mv)).map (fun t => stockAlertRow t.1 t.2.1 t.2.2)
        let flags := (sv.zip base).map (fun t => if t.1.isNone then "N/A (Missing Stock Data)" else t.2)
        (df3, flags)

/-- The sales DataFrame columns `get_sales_overview_data` (01_Sales_Overview
lines 76-84) reads when deriving net profit; each column is present or
absent, its cells already coerced to numeric by lines 66-71. -/
structure SalesDF where
  profit_per_unit_after_discount : Option (List (Option Dec))
  quantity_sold : Option (List (Option Dec))
  final_sale : Option (List (Option Dec))
  total_cost : Option (List (Option Dec))
  revenue_lost_to_discount : Option (List (Option Dec))
deriving DecidableEq

/-- The derived column `Calculated Net Profit per Transaction` of
01_Sales_Overview lines 76-84: if both the profit-per-unit and quantity
columns exist, `ppu.fillna(0) * qty.fillna(0)` per row; otherwise, if
both Final Sale and Total Cost exist, `fs.fillna(0) - tc.fillna(0)`,
minus `rld.fillna(0)` when that column also exists; otherwise the column
is not added at all (`none`). -/
def calculated_net_profit (df : SalesDF) : Option (List Dec) :=
  match df.profit_per_unit_after_discount, df.quantity_sold with
  | some ppu, some qty =>
    some ((ppu.zip qty).map (fun t => decMul (t.1.getD dec0) (t.2.getD dec0)))
  | _, _ =>
    match df.final_sale, df.total_cost with
    | some fs, some tc =>
      let base := (fs.zip tc).map (fun t => decSub (t.1.getD dec0) (t.2.getD dec0))
      some (match df.revenue_lost_to_discount with
            | some rl => (base.zip rl).map (fun t => decSub t.1 (t.2.getD dec0))
            | none => base)
    | _, _ => none

/-- A multi-select categorical filter of 01_Sales_Overview lines 222-231:
a truthiness test on the selection, then `df[df[col].isin(selection)]`.
An empty selection is falsy, so it
applies no filter; there is no "All" sentinel on this page.  Modelled on
the values of the filtered column. -/
def applyMultiselectSO (sel : List String) (rows : List String) : List String :=
  if sel.isEmpty then rows else rows.filter (fun v => sel.contains v)

/-- A multi-select categorical filter of 02_Inventory_Analysis lines
233-237: the filter applies only when the selection is non-empty AND
does not contain the sentinel "All"; otherwise the rows pass through
unfiltered. -/
def applyMultiselectIA (sel : List String) (rows : List String) : List String :=
  if !sel.isEmpty && !sel.contains "All" then rows.filter (fun v => sel.contains v) else rows

/-- The date-range filter of 01_Sales_Overview lines 216-220 and
02_Inventory_Analysis lines 228-231:
a conjunction of `>= start` and `<= end` on the Date column — inclusive on
both ends; a NaT date compares false and the row is dropped.  `dateOf`
projects the Date cell out of a row. -/
def applyDateRangeFilter {α : Type} (startD endD : CalDate)
    (dateOf : α → Option CalDate) (rows : List α) : List α :=
  rows.filter (fun r =>
    match dateOf r with
    | some d => dateLE startD d && dateLE d endD
    | none => false)

/-- A row of the order-lookup table: its Invoice ID (a string, per
06_Order_Lookup line 67) and the rest of the record. -/
structure OrderRow where
  invoice_id : String
  payload : String
deriving DecidableEq

/-- ASCII lowering of one character (model of Python `str.lower` on the
ASCII identifiers this data holds). -/
def asciiLower (c : Char) : Char :=
  if 65 ≤ c.toNat && c.toNat ≤ 90 then Char.ofNat (c.toNat + 32) else c

/-- Composition `strip().lower()` applied to an identifier. -/
def normalizeId (s : String) : String := String.mk ((trimL s.data).map asciiLower)

/-- The invoice lookup of 06_Order_Lookup lines 120-121:
keep the rows whose Invoice ID, stripped and lowered, equals the
stripped and lowered query. -/
def lookup_order (query : String) (rows : List OrderRow) : List OrderRow :=
  rows.filter (fun r => normalizeId r.invoice_id == normalizeId query)

/-- Number of decimal digits `natRenderAux` emits. -/
def digitCount (n : Nat) : Nat :=
  if n < 10 then 1 else digitCount (n / 10) + 1
termination_by n
decreasing_by exact Nat.div_lt_self (by omega) (by omega)

/-- The rational value of a float cell (`none` = NaN/missing). -/
def oDenote (v : Option Dec) : Option ℚ := v.map Dec.denote

/-- Claim-side `<=` on optional rationals, false when either is missing
(the claim-side reading of a NaN comparison). -/
def qLE : Option ℚ → Option ℚ → Bool
  | some a, some b => decide (a ≤ b)
  | _, _ => false

/-- Claim-side `<` on optional rationals, false when either is missing. -/
def qLT : Option ℚ → Option ℚ → Bool
  | some a, some b => decide (a < b)
  | _, _ => false

/-- Stock-alert classification as the claim states it, over rational
values: with stock_left missing the distinct missing-stock marker;
otherwise Reorder when `stock_left <= reorder_level`, Optimal when
`reorder_level < stock_left <= max_stock_level`, Surplus when
`stock_left > max_stock_level`, Unknown otherwise. -/
def claimStockFlag (s r m : Option ℚ) : String :=
  match s with
  | none => "N/A (Missing Stock Data)"
  | some sv =>
    if qLE (some sv) r then "Reorder"
    else if qLT r (some sv) && qLE (some sv) m then "Optimal"
    else if qLT m (some sv) then "Surplus"
    else "Unknown"

/-- Net profit per record as the claim prefers it:
`profit_per_unit_after_discount * quantity_sold`, a missing factor
counting as 0. -/
def claimNetProfitPrimary (ppu qty : Option ℚ) : ℚ := ppu.getD 0 * qty.getD 0

/-- Net profit fallback as the claim states it:
`final_sale - total_cost - revenue_lost_to_discount`, any missing term
treated as 0. -/
def claimNetProfitFallback (fs tc rld : Option ℚ) : ℚ := fs.getD 0 - tc.getD 0 - rld.getD 0

/-! ## Character and digit-string lemmas -/

theorem digitVal_digChar (d : Nat) (h : d < 10) : digitVal (digChar d) = d := by
  interval_cases d <;> rfl

theorem isDigitChar_digChar (d : Nat) (h : d < 10) : isDigitChar (digChar d) = true := by
  interval_cases d <;> rfl

/-- A digit character is not equal (as `==`) to any non-digit character. -/
theorem digit_beq_nondigit (c x : Char) (h : isDigitChar c = true)
    (hx : isDigitChar x = false) : (c == x) = false := by
  rw [Bool.eq_false_iff]
  intro hEq
  rw [beq_iff_eq] at hEq
  subst hEq
  rw [h] at hx
  exact Bool.noConfusion hx

theorem isWs_of_digit (c : Char) (h : isDigitChar c = true) : isWsChar c = false := by
  simp only [isWsChar,
    digit_beq_nondigit c ' ' h (by decide),
    digit_beq_nondigit c '\t' h (by decide),
    digit_beq_nondigit c '\n' h (by decide),
    digit_beq_nondigit c '\r' h (by decide),
    Bool.or_self, Bool.or_false]

theorem stripped_of_digit (c : Char) (h : isDigitChar c = true) :
    strippedCurrencyChar c = false := by
  simp only [strippedCurrencyChar,
    digit_beq_nondigit c (Char.ofNat 0xE2) h (by decide),
    digit_beq_nondigit c (Char.ofNat 0x201A) h (by decide),
    digit_beq_nondigit c (Char.ofNat 0xB9) h (by decide),
    digit_beq_nondigit c ',' h (by decide),
    Bool.or_self, Bool.or_false]

theorem percent_of_digit (c : Char) (h : isDigitChar c = true) : (c == '%') = false :=
  digit_beq_nondigit c '%' h (by decide)

/-! ## `takeWhile` / `dropWhile` / `trim` helpers -/

theorem takeWhile_append_all {p : Char → Bool} (xs ys : List Char)
    (h : ∀ c ∈ xs, p c = true) :
    (xs ++ ys).takeWhile p = xs ++ ys.takeWhile p := by
  induction xs with
  | nil => simp
  | cons a l ih =>
    have ha : p a = true := h a (List.mem_cons_self a l)
    simp only [List.cons_append, List.takeWhile_cons, ha, if_true]
    rw [ih (fun c hc => h c (List.mem_cons_of_mem a hc))]

theorem dropWhile_append_all {p : Char → Bool} (xs ys : List Char)
    (h : ∀ c ∈ xs, p c = true) :
    (xs ++ ys).dropWhile p = ys.dropWhile p := by
  induction xs with
  | nil => simp
  | cons a l ih =>
    have ha : p a = true := h a (List.mem_cons_self a l)
    simp only [List.cons_append, List.dropWhile_cons, ha, if_true]
    exact ih (fun c hc => h c (List.mem_cons_of_mem a hc))

theorem takeWhile_all {p : Char → Bool} (xs : List Char) (h : ∀ c ∈ xs, p c = true) :
    xs.takeWhile p = xs := by
  have := takeWhile_append_all (p := p) xs [] h
  simpa using this

theorem dropWhile_all {p : Char → Bool} (xs : List Char) (h : ∀ c ∈ xs, p c = true) :
    xs.dropWhile p = [] := by
  have := dropWhile_append_all (p := p) xs [] h
  simpa using this

theorem takeWhile_cons_false {p : Char → Bool} (c : Char) (xs : List Char)
    (h : p c = false) : (c :: xs).takeWhile p = [] := by
  simp [List.takeWhile_cons, h]

theorem dropWhile_cons_false {p : Char → Bool} (c : Char) (xs : List Char)
    (h : p c = false) : (c :: xs).dropWhile p = c :: xs := by
  simp [List.dropWhile_cons, h]

theorem dropWhile_eq_self_of_all {p : Char → Bool} (xs : List Char)
    (h : ∀ c ∈ xs, p c = false) : xs.dropWhile p = xs := by
  cases xs with
  | nil => rfl
  | cons a l => exact dropWhile_cons_false a l (h a (List.mem_cons_self a l))

theorem trimL_of_no_ws (cs : List Char) (h : ∀ c ∈ cs, isWsChar c = false) :
    trimL cs = cs := by
  unfold trimL
  rw [dropWhile_eq_self_of_all cs h]
  rw [dropWhile_eq_self_of_all cs.reverse (fun c hc => h c (List.mem_reverse.mp hc))]
  exact List.reverse_reverse cs

/-! ## Rendering lemmas: the digit string of a number -/

theorem natRenderAux_ne_nil (n : Nat) : ∀ acc, natRenderAux n acc ≠ [] := by
  induction n using Nat.strong_induction_on with
  | _ n ih =>
    intro acc
    unfold natRenderAux
    by_cases h : n < 10
    · simp [h]
    · simp only [h, if_false]
      exact ih (n / 10) (Nat.div_lt_self (by omega) (by omega)) _

theorem natRenderAux_digits (n : Nat) :
    ∀ acc, (∀ c ∈ acc, isDigitChar c = true) →
      ∀ c ∈ natRenderAux n acc, isDigitChar c = true := by
  induction n using Nat.strong_induction_on with
  | _ n ih =>
    intro acc hacc c hc
    unfold natRenderAux at hc
    by_cases h : n < 10
    · simp only [h, if_true] at hc
      rcases List.mem_cons.mp hc with rfl | hmem
      · exact isDigitChar_digChar n h
      · exact hacc c hmem
    · simp only [h, if_false] at hc
      refine ih (n / 10) (Nat.div_lt_self (by omega) (by omega)) _ ?_ c hc
      intro x hx
      rcases List.mem_cons.mp hx with rfl | hmem
      · exact isDigitChar_digChar _ (Nat.mod_lt n (by omega))
      · exact hacc x hmem

theorem natRender_digits (n : Nat) : ∀ c ∈ natRender n, isDigitChar c = true :=
  natRenderAux_digits n [] (by intro c hc; cases hc)

theorem natRender_isEmpty (n : Nat) : (natRender n).isEmpty = false := by
  cases hn : natRender n with
  | nil => exact absurd hn (natRenderAux_ne_nil n [])
  | cons c cs => rfl

theorem foldl_natRenderAux (n : Nat) :
    ∀ (acc : List Char) (a : Nat),
      (natRenderAux n acc).foldl (fun x c => 10 * x + digitVal c) a
        = acc.foldl (fun x c => 10 * x + digitVal c) (a * 10 ^ digitCount n + n) := by
  induction n using Nat.strong_induction_on with
  | _ n ih =>
    intro acc a
    unfold natRenderAux digitCount
    by_cases h : n < 10
    · simp only [h, if_true, List.foldl_cons]
      rw [digitVal_digChar n h]
      congr 1
      simp [pow_one]
      omega
    · simp only [h, if_false]
      rw [ih (n / 10) (Nat.div_lt_self (by omega) (by omega))]
      simp only [List.foldl_cons]
      congr 1
      rw [digitVal_digChar _ (Nat.mod_lt n (by omega))]
      have hdm : 10 * (n / 10) + n % 10 = n := Nat.div_add_mod n 10
      rw [pow_succ]
      nlinarith [hdm]

theorem digitsVal_natRender (n : Nat) : digitsVal (natRender n) = n := by
  unfold digitsVal natRender
  rw [foldl_natRenderAux n [] 0]
  simp

/-! ## Characters a rendered float can contain -/

theorem renderNumCell_chars (v : Option Dec) :
    ∀ c ∈ renderNumCell v,
      isDigitChar c = true ∨ c = '-' ∨ c = 'e' ∨ c = 'n' ∨ c = 'a' := by
  cases v with
  | none =>
    intro c hc
    simp only [renderNumCell] at hc
    rcases List.mem_cons.mp hc with rfl | hc
    · tauto
    rcases List.mem_cons.mp hc with rfl | hc
    · tauto
    rcases List.mem_cons.mp hc with rfl | hc
    · tauto
    · cases hc
  | some d =>
    intro c hc
    simp only [renderNumCell, renderDec] at hc
    rcases List.mem_append.mp hc with hInt | hTail
    · unfold intRender at hInt
      by_cases hm : d.mant < 0
      · simp only [hm, if_true] at hInt
        rcases List.mem_cons.mp hInt with rfl | hmem
        · tauto
        · exact Or.inl (natRender_digits _ c hmem)
      · simp only [hm, if_false] at hInt
        exact Or.inl (natRender_digits _ c hInt)
    · rcases List.mem_cons.mp hTail with rfl | hTail2
      · tauto
      rcases List.mem_cons.mp hTail2 with rfl | hmem
      · tauto
      · exact Or.inl (natRender_digits _ c hmem)

theorem renderNumCell_no_ws (v : Option Dec) :
    ∀ c ∈ renderNumCell v, isWsChar c = false := by
  intro c hc
  rcases renderNumCell_chars v c hc with h | rfl | rfl | rfl | rfl
  · exact isWs_of_digit c h
  all_goals decide

theorem renderNumCell_keep_currency (v : Option Dec) :
    ∀ c ∈ renderNumCell v, (!strippedCurrencyChar c) = true := by
  intro c hc
  rcases renderNumCell_chars v c hc with h | rfl | rfl | rfl | rfl
  · rw [stripped_of_digit c h]; rfl
  all_goals decide

theorem renderNumCell_no_percent (v : Option Dec) :
    ∀ c ∈ renderNumCell v, (!(c == '%')) = true := by
  intro c hc
  rcases renderNumCell_chars v c hc with h | rfl | rfl | rfl | rfl
  · rw [percent_of_digit c h]; rfl
  all_goals decide

theorem filter_currency_render (v : Option Dec) :
    (renderNumCell v).filter (fun c => !strippedCurrencyChar c) = renderNumCell v :=
  List.filter_eq_self.mpr (renderNumCell_keep_currency v)

theorem filter_percent_render (v : Option Dec) :
    (renderNumCell v).filter (fun c => !(c == '%')) = renderNumCell v :=
  List.filter_eq_self.mpr (renderNumCell_no_percent v)

theorem trimL_render (v : Option Dec) : trimL (renderNumCell v) = renderNumCell v :=
  trimL_of_no_ws _ (renderNumCell_no_ws v)

/-! ## The parse-render roundtrip -/

theorem parseExpDigits_natRender (e : Nat) : parseExpDigits (natRender e) = some e := by
  unfold parseExpDigits
  rw [takeWhile_all _ (natRender_digits e), dropWhile_all _ (natRender_digits e)]
  simp [natRender_isEmpty e, digitsVal_natRender e]

theorem parseExpPart_neg_exp (mant : Int) (e : Nat) :
    parseExpPart mant 0 ('e' :: '-' :: natRender e) = some ⟨mant, e⟩ := by
  simp only [parseExpPart, parseExpSuffix]
  simp [parseExpDigits_natRender e]

theorem parseMantissa_digits_exp (sign : Int) (n e : Nat) :
    parseMantissa sign (natRender n ++ 'e' :: '-' :: natRender e)
      = some ⟨sign * (n : Int), e⟩ := by
  unfold parseMantissa
  rw [takeWhile_append_all _ _ (natRender_digits n),
    dropWhile_append_all _ _ (natRender_digits n)]
  rw [takeWhile_cons_false 'e' _ (by decide), dropWhile_cons_false 'e' _ (by decide)]
  simp only [List.append_nil]
  simp [natRender_isEmpty n, digitsVal_natRender n, parseExpPart_neg_exp]

theorem parseNum_renderDec (m : Int) (e : Nat) :
    parseNumList (renderDec ⟨m, e⟩) = some ⟨m, e⟩ := by
  unfold parseNumList
  rw [show trimL (renderDec ⟨m, e⟩) = renderDec ⟨m, e⟩ from trimL_render (some ⟨m, e⟩)]
  by_cases hm : m < 0
  · have h1 : renderDec ⟨m, e⟩ = '-' :: (natRender m.natAbs ++ 'e' :: '-' :: natRender e) := by
      simp [renderDec, intRender, hm]
    rw [h1]
    simp only [parseSigned, beq_self_eq_true, if_true]
    rw [parseMantissa_digits_exp (-1) m.natAbs e]
    have h2 : (-1 : Int) * (m.natAbs : Int) = m := by omega
    rw [h2]
  · have h1 : renderDec ⟨m, e⟩ = natRender m.natAbs ++ 'e' :: '-' :: natRender e := by
      simp [renderDec, intRender, hm]
    rw [h1]
    obtain ⟨c, cs, hcons⟩ : ∃ c cs, natRender m.natAbs = c :: cs := by
      cases hn : natRender m.natAbs with
      | nil => exact absurd hn (natRenderAux_ne_nil m.natAbs [])
      | cons c cs => exact ⟨c, cs, rfl⟩
    have hd : isDigitChar c = true :=
      natRender_digits m.natAbs c (by rw [hcons]; exact List.mem_cons_self c cs)
    rw [hcons, List.cons_append]
    simp only [parseSigned, digit_beq_nondigit c '-' hd (by decide),
      digit_beq_nondigit c '+' hd (by decide), Bool.false_eq_true, if_false]
    rw [← List.cons_append, ← hcons]
    rw [parseMantissa_digits_exp 1 m.natAbs e]
    have h2 : (1 : Int) * (m.natAbs : Int) = m := by omega
    rw [h2]

/-- Parsing inverts rendering: the model of the float repr-roundtrip
(`float(str(x)) == x` and `str(nan)` reparsing to NaN) that makes a
second cleaning pass leave numeric columns unchanged. -/
theorem parseNum_renderNumCell (v : Option Dec) : parseNumList (renderNumCell v) = v := by
  cases v with
  | none => decide
  | some d =>
    obtain ⟨m, e⟩ := d
    exact parseNum_renderDec m e

/-! ## A second cleaning pass is the identity on cleaned columns -/

theorem cleanCurrencyCol_numCol (vs : List (Option Dec)) :
    cleanCurrencyCol (Col.numCol vs) = Col.numCol vs := by
  have h : ∀ v, parseNumList ((renderNumCell v).filter (fun c => !strippedCurrencyChar c)) = v := by
    intro v
    rw [filter_currency_render, parseNum_renderNumCell]
  simp [cleanCurrencyCol, h]

theorem cleanPercentCol_numCol (vs : List (Option Dec)) :
    cleanPercentCol (Col.numCol vs) = Col.numCol vs := by
  have h : ∀ v, parseNumList (trimL ((renderNumCell v).filter (fun c => !(c == '%')))) = v := by
    intro v
    rw [filter_percent_render, trimL_render, parseNum_renderNumCell]
  simp [cleanPercentCol, h]

theorem currency_after_currency (c : Col) :
    cleanCurrencyCol (cleanCurrencyCol c) = cleanCurrencyCol c := by
  cases c <;> exact cleanCurrencyCol_numCol _

theorem currency_after_percent (c : Col) :
    cleanCurrencyCol (cleanPercentCol c) = cleanPercentCol c := by
  cases c <;> exact cleanCurrencyCol_numCol _

theorem currency_after_numeric (c : Col) :
    cleanCurrencyCol (toNumericCol c) = toNumericCol c := by
  cases c <;> exact cleanCurrencyCol_numCol _

theorem percent_after_currency (c : Col) :
    cleanPercentCol (cleanCurrencyCol c) = cleanCurrencyCol c := by
  cases c <;> exact cleanPercentCol_numCol _

theorem percent_after_percent (c : Col) :
    cleanPercentCol (cleanPercentCol c) = cleanPercentCol c := by
  cases c <;> exact cleanPercentCol_numCol _

theorem percent_after_numeric (c : Col) :
    cleanPercentCol (toNumericCol c) = toNumericCol c := by
  cases c <;> exact cleanPercentCol_numCol _

theorem numeric_after_currency (c : Col) :
    toNumericCol (cleanCurrencyCol c) = cleanCurrencyCol c := by
  cases c <;> rfl

theorem numeric_after_percent (c : Col) :
    toNumericCol (cleanPercentCol c) = cleanPercentCol c := by
  cases c <;> rfl

theorem numeric_after_numeric (c : Col) :
    toNumericCol (toNumericCol c) = toNumericCol c := by
  cases c <;> rfl

theorem date_after_date (c : Col) :
    cleanDateCol (cleanDateCol c) = cleanDateCol c := by
  cases c <;> rfl

theorem cleanColumn_idem (name : String) (c : Col) :
    cleanColumn name (cleanColumn name c) = cleanColumn name c := by
  by_cases h4 : (name == "Date") = true
  · have hname : name = "Date" := by rwa [beq_iff_eq] at h4
    subst hname
    simp only [cleanColumn,
      show currency_cols.contains "Date" = false by decide,
      show percent_cols.contains "Date" = false by decide,
      show numeric_cols.contains "Date" = false by decide,
      Bool.false_eq_true, if_false, beq_self_eq_true, if_true]
    exact date_after_date c
  · have hne : name ≠ "Date" := by simpa using h4
    by_cases m1 : name ∈ currency_cols <;>
      by_cases m2 : name ∈ percent_cols <;>
        by_cases m3 : name ∈ numeric_cols <;>
          simp [cleanColumn, m1, m2, m3, hne,
            currency_after_currency, currency_after_percent, currency_after_numeric,
            percent_after_currency, percent_after_percent, percent_after_numeric,
            numeric_after_currency, numeric_after_percent, numeric_after_numeric]

/-- C6: normalization is idempotent — running `clean_data` on its own
output returns that output unchanged, for every input table: numeric
columns already numeric, already-parsed dates and untouched
(categorical) columns are all left as they are by a second pass. -/
theorem clean_data_idempotent (df : List (String × Col)) :
    clean_data (clean_data df) = clean_data df := by
  unfold clean_data
  rw [List.map_map]
  apply List.map_congr_left
  intro nc _
  simp [Function.comp, cleanColumn_idem]

/-! ## Decimal comparisons agree with rational comparisons -/

theorem decLE_denote (a b : Dec) : decLE a b = decide (Dec.denote a ≤ Dec.denote b) := by
  unfold decLE Dec.denote
  rw [decide_eq_decide]
  rw [div_le_div_iff₀ (by positivity) (by positivity)]
  constructor <;> intro h <;> exact_mod_cast h

theorem decLT_denote (a b : Dec) : decLT a b = decide (Dec.denote a < Dec.denote b) := by
  unfold decLT Dec.denote
  rw [decide_eq_decide]
  rw [div_lt_div_iff₀ (by positivity) (by positivity)]
  constructor <;> intro h <;> exact_mod_cast h

/-! ## Stock alert: the per-row classification matches the claim -/

theorem stockAlertRow_claim (s r m : Option Dec) :
    (if s.isNone then "N/A (Missing Stock Data)" else stockAlertRow s r m)
      = claimStockFlag (oDenote s) (oDenote r) (oDenote m) := by
  cases s with
  | none => rfl
  | some sv =>
    cases r <;> cases m <;>
      simp [stockAlertRow, claimStockFlag, oDenote, oLE, oGT, qLE, qLT,
        decLE_denote, decLT_denote]

theorem stockAlertFlags_claim (sv rv mv : List (Option Dec)) :
    ((sv.zip ((sv.zip (rv.zip mv)).map (fun t => stockAlertRow t.1 t.2.1 t.2.2))).map
        (fun t => if t.1.isNone then "N/A (Missing Stock Data)" else t.2))
      = (sv.zip (rv.zip mv)).map
          (fun t => claimStockFlag (oDenote t.1) (oDenote t.2.1) (oDenote t.2.2)) := by
  induction sv generalizing rv mv with
  | nil => simp
  | cons a as ih =>
    cases rv with
    | nil => simp
    | cons b bs =>
      cases mv with
      | nil => simp
      | cons c cs =>
        simp only [List.zip_cons_cons, List.map_cons]
        rw [ih bs cs]
        congr 1
        exact stockAlertRow_claim a b c

/-- C4 (amended): when the Stock Left, Reorder Level and Max Stock Level
columns are all present, `derive_stock_alert_flag` classifies every row
exactly as the claim states (Reorder / Optimal / Surplus / Unknown on
the rational values, with rows whose stock_left is missing forced to
"N/A (Missing Stock Data)"); but when ANY of the three columns is
absent, the loop returns early and EVERY row — rows with missing
stock_left included — gets the constant column-missing marker
"N/A (Missing Threshold Data)" instead. -/
theorem stock_alert_flag_branches :
    (∀ (df : InvDF) (sl rl ms : List Cell),
        df.stock_left = some sl → df.reorder_level = some rl →
        df.max_stock_level = some ms →
        (derive_stock_alert_flag df).2
          = ((sl.map Cell.toNumeric).zip
                ((rl.map Cell.toNumeric).zip (ms.map Cell.toNumeric))).map
              (fun t => claimStockFlag (oDenote t.1) (oDenote t.2.1) (oDenote t.2.2)))
    ∧ (∀ df : InvDF,
        df.stock_left = none ∨ df.reorder_level = none ∨ df.max_stock_level = none →
        (derive_stock_alert_flag df).2
          = List.replicate df.nrows "N/A (Missing Threshold Data)") := by
  constructor
  · intro df sl rl ms hsl hrl hms
    obtain ⟨n, osl, orl, oms⟩ := df
    simp only at hsl hrl hms
    subst hsl hrl hms
    simp only [derive_stock_alert_flag]
    exact stockAlertFlags_claim _ _ _
  · intro df h
    obtain ⟨n, osl, orl, oms⟩ := df
    simp only at h
    rcases h with h | h | h
    · subst h
      rfl
    · subst h
      cases osl <;> rfl
    · subst h
      cases osl <;> cases orl <;> rfl

/-- C4 counterexample: with the Max Stock Level column absent, a row
with missing stock_left receives the column-missing marker, not the
"missing stock data" marker the claim promises for every branch. -/
theorem stock_alert_missing_stock_marker_cex :
    (derive_stock_alert_flag
        ⟨1, some [Cell.num none], some [Cell.num (some dec0)], none⟩).2
        = ["N/A (Missing Threshold Data)"]
      ∧ "N/A (Missing Threshold Data)" ≠ "N/A (Missing Stock Data)" := by
  exact ⟨rfl, by decide⟩

/-- C10: the stock-alert derivation is total — whichever of the three
stock columns exist, it returns a (string) flag for every row of the
table, in every branch. -/
theorem stock_alert_flag_total (df : InvDF)
    (hs : ∀ l ∈ df.stock_left, l.length = df.nrows)
    (hr : ∀ l ∈ df.reorder_level, l.length = df.nrows)
    (hm : ∀ l ∈ df.max_stock_level, l.length = df.nrows) :
    (derive_stock_alert_flag df).2.length = df.nrows := by
  obtain ⟨n, osl, orl, oms⟩ := df
  simp only at hs hr hm
  cases osl with
  | none => simp [derive_stock_alert_flag]
  | some sl =>
    cases orl with
    | none => simp [derive_stock_alert_flag]
    | some rl =>
      cases oms with
      | none => simp [derive_stock_alert_flag]
      | some ms =>
        have h1 : sl.length = n := hs sl rfl
        have h2 : rl.length = n := hr rl rfl
        have h3 : ms.length = n := hm ms rfl
        simp only [derive_stock_alert_flag, List.length_map, List.length_zip, h1, h2, h3]
        omega

/-- C10 witness: a concrete two-row table with all three columns,
mixed raw and missing cells, gets a flag for each of its two rows. -/
theorem stock_alert_flag_total_witness :
    (derive_stock_alert_flag
        ⟨2, some [Cell.num none, Cell.str "5"],
         some [Cell.num (some dec0), Cell.num none],
         some [Cell.str "40", Cell.num (some dec0)]⟩).2.length = 2 :=
  stock_alert_flag_total _ (by simp) (by simp) (by simp)

/-! ## Net profit: decimal arithmetic denotes rational arithmetic -/

theorem denote_dec0 : Dec.denote dec0 = 0 := by
  simp [Dec.denote, dec0]

theorem denote_decMul (a b : Dec) : (decMul a b).denote = a.denote * b.denote := by
  simp only [Dec.denote, decMul, pow_add]
  push_cast
  ring

theorem denote_decSub (a b : Dec) : (decSub a b).denote = a.denote - b.denote := by
  simp only [Dec.denote, decSub, pow_add]
  push_cast
  field_simp
  ring

theorem oDenote_getD (v : Option Dec) : (oDenote v).getD 0 = (v.getD dec0).denote := by
  cases v <;> simp [oDenote, denote_dec0]

/-- C5: the derived net-profit column prefers
`profit_per_unit_after_discount * quantity_sold` whenever both those
columns are present (missing factors as 0); otherwise it falls back to
`final_sale - total_cost - revenue_lost_to_discount` when Final Sale and
Total Cost are present, any missing term (the revenue-lost column
included) counting as 0; and when neither input set is present the
column is omitted entirely.  The two concrete cases of the spec,
10 * 5 = 50 and 200 - 150 - 20 = 30, are included. -/
theorem calculated_net_profit_formula :
    (∀ (df : SalesDF) (ppu qty : List (Option Dec)),
        df.profit_per_unit_after_discount = some ppu → df.quantity_sold = some qty →
        (calculated_net_profit df).map (List.map Dec.denote)
          = some ((ppu.zip qty).map
              (fun t => claimNetProfitPrimary (oDenote t.1) (oDenote t.2))))
    ∧ (∀ (df : SalesDF) (fs tc rl : List (Option Dec)),
        (df.profit_per_unit_after_discount = none ∨ df.quantity_sold = none) →
        df.final_sale = some fs → df.total_cost = some tc →
        df.revenue_lost_to_discount = some rl →
        (calculated_net_profit df).map (List.map Dec.denote)
          = some (((fs.zip tc).zip rl).map
              (fun t => claimNetProfitFallback (oDenote t.1.1) (oDenote t.1.2) (oDenote t.2))))
    ∧ (∀ (df : SalesDF) (fs tc : List (Option Dec)),
        (df.profit_per_unit_after_discount = none ∨ df.quantity_sold = none) →
        df.final_sale = some fs → df.total_cost = some tc →
        df.revenue_lost_to_discount = none →
        (calculated_net_profit df).map (List.map Dec.denote)
          = some ((fs.zip tc).map
              (fun t => claimNetProfitFallback (oDenote t.1) (oDenote t.2) none)))
    ∧ (∀ df : SalesDF,
        (df.profit_per_unit_after_discount = none ∨ df.quantity_sold = none) →
        (df.final_sale = none ∨ df.total_cost = none) →
        calculated_net_profit df = none)
    ∧ calculated_net_profit ⟨some [some ⟨10, 0⟩], some [some ⟨5, 0⟩], none, none, none⟩
        = some [⟨50, 0⟩]
    ∧ calculated_net_profit
        ⟨none, none, some [some ⟨200, 0⟩], some [some ⟨150, 0⟩], some [some ⟨20, 0⟩]⟩
        = some [⟨30, 0⟩] := by
  refine ⟨?_, ?_, ?_, ?_, ?_, ?_⟩
  · intro df ppu qty hp hq
    obtain ⟨op, oq, ofs, otc, orl⟩ := df
    simp only at hp hq
    subst hp hq
    simp only [calculated_net_profit, Option.map_some', List.map_map]
    congr 1
    apply List.map_congr_left
    intro t _
    simp [Function.comp, claimNetProfitPrimary, denote_decMul, oDenote_getD]
  · intro df fs tc rl h hfs htc hrl
    obtain ⟨op, oq, ofs, otc, orl⟩ := df
    simp only at h hfs htc hrl
    subst hfs htc hrl
    have hred : calculated_net_profit ⟨op, oq, some fs, some tc, some rl⟩
        = some ((((fs.zip tc).map (fun t => decSub (t.1.getD dec0) (t.2.getD dec0))).zip rl).map
            (fun t => decSub t.1 (t.2.getD dec0))) := by
      rcases h with h | h
      · subst h
        rfl
      · subst h
        cases op <;> rfl
    rw [hred]
    simp only [Option.map_some', List.zip_map_left, List.map_map]
    congr 1
    apply List.map_congr_left
    intro t _
    simp [Function.comp, claimNetProfitFallback, denote_decSub, oDenote_getD, Prod.map]
  · intro df fs tc h hfs htc hrl
    obtain ⟨op, oq, ofs, otc, orl⟩ := df
    simp only at h hfs htc hrl
    subst hfs htc hrl
    have hred : calculated_net_profit ⟨op, oq, some fs, some tc, none⟩
        = some ((fs.zip tc).map (fun t => decSub (t.1.getD dec0) (t.2.getD dec0))) := by
      rcases h with h | h
      · subst h
        rfl
      · subst h
        cases op <;> rfl
    rw [hred]
    simp only [Option.map_some', List.map_map]
    congr 1
    apply List.map_congr_left
    intro t _
    simp [Function.comp, claimNetProfitFallback, denote_decSub, oDenote_getD]
  · intro df h1 h2
    obtain ⟨op, oq, ofs, otc, orl⟩ := df
    simp only at h1 h2
    rcases h1 with h1 | h1 <;> rcases h2 with h2 | h2 <;> subst h1 h2 <;>
      (try cases op) <;> (try cases oq) <;> (try cases ofs) <;> (try cases otc) <;> rfl
  · rfl
  · rfl

/-! ## Filters and lookup -/

theorem dateLE_refl (d : CalDate) : dateLE d d = true := by
  simp [dateLE]

/-- C7 counterexample: on the Sales Overview filters there is no "All"
sentinel — a selection containing only "All" is an ordinary membership
test, so it excludes a row whose value is "X" instead of yielding the
unfiltered set. -/
theorem multiselect_all_sentinel_cex :
    applyMultiselectSO ["All"] ["X"] ≠ ["X"] := by
  decide

/-- C7 (amended): an empty selection yields the unfiltered set on both
pages; a selection containing the sentinel "All" yields the unfiltered
set on the Inventory Analysis filters (the only ones with the
sentinel); and a non-empty selection without "All" keeps exactly the
rows whose value belongs to the selected set, on both pages. -/
theorem multiselect_filter_semantics :
    (∀ rows : List String, applyMultiselectSO [] rows = rows)
    ∧ (∀ rows : List String, applyMultiselectIA [] rows = rows)
    ∧ (∀ (sel rows : List String), sel.contains "All" = true →
        applyMultiselectIA sel rows = rows)
    ∧ (∀ (sel rows : List String), sel ≠ [] → sel.contains "All" = false →
        applyMultiselectSO sel rows = rows.filter (fun v => sel.contains v)
          ∧ applyMultiselectIA sel rows = rows.filter (fun v => sel.contains v)) := by
  refine ⟨?_, ?_, ?_, ?_⟩
  · intro rows
    rfl
  · intro rows
    rfl
  · intro sel rows hAll
    have hmem : "All" ∈ sel := by simpa using hAll
    simp [applyMultiselectIA, hmem]
  · intro sel rows hne hAll
    have hie : sel.isEmpty = false := by
      cases sel with
      | nil => exact absurd rfl hne
      | cons a l => rfl
    have hmem : "All" ∉ sel := by simpa using hAll
    constructor
    · simp [applyMultiselectSO, hie]
    · simp [applyMultiselectIA, hie, hmem]

/-- C8: the date-range filter is inclusive on both ends — a row dated
exactly on the start or on the end of a well-ordered range is retained. -/
theorem date_range_filter_inclusive {α : Type} (startD endD : CalDate)
    (dateOf : α → Option CalDate) (rows : List α) (r : α)
    (hmem : r ∈ rows)
    (hd : dateOf r = some startD ∨ dateOf r = some endD)
    (hrange : dateLE startD endD = true) :
    r ∈ applyDateRangeFilter startD endD dateOf rows := by
  rw [applyDateRangeFilter, List.mem_filter]
  refine ⟨hmem, ?_⟩
  rcases hd with hd | hd <;> rw [hd] <;> simp [dateLE_refl, hrange]

/-- C8 witness: a record dated exactly on the start of the range
2024-01-01 to 2024-02-01 is retained. -/
theorem date_range_filter_inclusive_witness :
    (0 : Nat) ∈ applyDateRangeFilter ⟨2024, 1, 1⟩ ⟨2024, 2, 1⟩
        (fun _ => some ⟨2024, 1, 1⟩) [0] :=
  date_range_filter_inclusive ⟨2024, 1, 1⟩ ⟨2024, 2, 1⟩ (fun _ => some ⟨2024, 1, 1⟩)
    [0] 0 (by decide) (Or.inl rfl) (by decide)

/-- C9: the invoice lookup returns exactly the stored records whose
Invoice ID equals the query after trimming surrounding whitespace and
lowering case on both sides; searching " inv-001 " finds a stored
"INV-001", and a query matching nothing returns the empty list (a valid
outcome, not an error). -/
theorem invoice_lookup_case_insensitive :
    (∀ (query : String) (rows : List OrderRow) (r : OrderRow),
        r ∈ lookup_order query rows
          ↔ r ∈ rows ∧ normalizeId r.invoice_id = normalizeId query)
    ∧ lookup_order " inv-001 " [⟨"INV-001", "row"⟩] = [⟨"INV-001", "row"⟩]
    ∧ lookup_order "INV-999" [⟨"INV-001", "row"⟩] = [] := by
  refine ⟨?_, by decide, by decide⟩
  intro query rows r
  simp [lookup_order, List.mem_filter]

/-! ## The three code-level divergences -/

/-- C1: `clean_data` strips the mojibake bytes of the rupee sign, not
the rupee sign itself: a cell written with the real sign U+20B9 coerces
to missing instead of 1000, while the mojibake-encoded cell parses;
malformed cells ("abc", "") coerce to missing without an error. -/
theorem currency_parsing_rupee_mismatch :
    cleanCurrencyCell (String.mk [rupeeSign, ' ', '1', ',', '0', '0', '0']).data = none
    ∧ cleanCurrencyCell "â‚¹ 1,000".data = some ⟨1000, 0⟩
    ∧ cleanCurrencyCell "abc".data = none
    ∧ cleanCurrencyCell "".data = none := by
  refine ⟨?_, ?_, ?_, ?_⟩ <;> decide

/-- C2: the Date column the pages read is parsed by `clean_data` with
the pandas default (month first): "01/02/2024" normalizes to
January 2, 2024 on the Sales Overview page AND on the Inventory
Analysis page — the `dayfirst=True` conversion of the latter is behind
a dtype guard that `clean_data` has already made false — while the
day-first reading the claim requires would be February 1, 2024. -/
theorem date_parsed_month_first :
    salesOverviewDateColumn ["01/02/2024"] = Col.dateCol [some ⟨2024, 1, 2⟩]
    ∧ inventoryDateColumn ["01/02/2024"] = Col.dateCol [some ⟨2024, 1, 2⟩]
    ∧ parseDateSlash true "01/02/2024" = some ⟨2024, 2, 1⟩ := by
  refine ⟨?_, ?_, ?_⟩ <;> decide

/-- C3: a row whose Date cell fails to parse is NOT dropped from the
normalized table: `clean_data` already produced a datetime column, so
the guarded `dropna` of the pages never runs and the row survives with
a missing (NaT) date; the dropping code is reachable only in the
never-taken branch where the column is still raw text. -/
theorem failed_date_rows_retained :
    salesOverviewDateColumn ["01/02/2024", "notadate"]
        = Col.dateCol [some ⟨2024, 1, 2⟩, none]
    ∧ orderLookupDateColumn ["01/02/2024", "notadate"]
        = Col.dateCol [some ⟨2024, 1, 2⟩, none]
    ∧ pageDateStep false true (Col.strCol ["01/02/2024", "notadate"])
        = Col.dateCol [some ⟨2024, 1, 2⟩] := by
  refine ⟨?_, ?_, ?_⟩ <;> decide
